import Mathlib

/-!
Verification of the defcon_server geodata query and aggregation engine
(`src/server.ts` and its compiled variants).

The TypeScript source is shallowly embedded: JS numbers that hold integer
data (populations, resource amounts, ids) are modelled as `Int`, coordinates
and averages as `ℚ`/`ℝ` (exact arithmetic idealization of doubles), fallible
routes as `Except`, and the stateful cache paths as explicit state passing.
JS `Array.prototype.sort` (stable since ES2019) with a numeric comparator
`(a, b) => key b - key a` is modelled by a stable descending insertion sort.
-/

namespace DefconServer

/-- `Resources` record from server.ts (seven numeric fields). -/
structure Resources where
  oil : Int
  metal : Int
  crates : Int
  wheat : Int
  workforce : Int
  rareResources : Int
  money : Int
deriving DecidableEq

/-- `Doctrine` record from server.ts. -/
structure Doctrine where
  name : String
  description : String
deriving DecidableEq

/-- `Country` record from server.ts. -/
structure Country where
  code : String
  iso3 : String
  num : String
  iso : String
  name : String
  capital : String
  area : Int
  population : Int
  continent : String
  tld : String
  currency : String
  currencyName : String
  phone : String
  postalCode : String
  postalCodeRegex : String
  languages : String
  geonameid : Int
  neighbours : String
  doctrine : Doctrine
deriving DecidableEq

/-- The `latLng` coordinate pair of a city, in decimal degrees. -/
structure LatLng where
  lat : ℚ
  lng : ℚ
deriving DecidableEq

/-- `City` record from server.ts (enriched variant, which has all fields). -/
structure City where
  geonameid : Int
  name : String
  asciiname : String
  alternatenames : List String
  latLng : LatLng
  featureClass : String
  featureCode : String
  countryCode : String
  population : Int
  timezone : String
  width : Int
  resources : Resources
  country : Country
deriving DecidableEq

/-- The request-level failures the routes surface as 404 responses. -/
inductive LookupError where
  | notFound
  | indexOutOfRange
deriving DecidableEq

/-- The zero-valued `Resources` literal used as the `reduce` seed in
`computeTotalResources`. -/
def zeroResources : Resources :=
  { oil := 0, metal := 0, crates := 0, wheat := 0, workforce := 0,
    rareResources := 0, money := 0 }

/-- `computeTotalResources` from server.ts: field-wise sum over the cities
via `Array.prototype.reduce` with the all-zero seed. -/
def computeTotalResources (cities : List City) : Resources :=
  cities.foldl
    (fun acc city =>
      { oil := acc.oil + city.resources.oil
        metal := acc.metal + city.resources.metal
        crates := acc.crates + city.resources.crates
        wheat := acc.wheat + city.resources.wheat
        workforce := acc.workforce + city.resources.workforce
        rareResources := acc.rareResources + city.resources.rareResources
        money := acc.money + city.resources.money })
    zeroResources

/-- Field-wise addition of `Resources` records (the spec's notion of summing
two partition totals, used to state partition-additivity). -/
def addResources (r s : Resources) : Resources :=
  { oil := r.oil + s.oil, metal := r.metal + s.metal, crates := r.crates + s.crates,
    wheat := r.wheat + s.wheat, workforce := r.workforce + s.workforce,
    rareResources := r.rareResources + s.rareResources, money := r.money + s.money }

/-- The callback of the `reduce` in `computeTotalResources`: add one city's
resources onto the accumulator, field by field. -/
def resourcesAccum (acc : Resources) (city : City) : Resources :=
  { oil := acc.oil + city.resources.oil
    metal := acc.metal + city.resources.metal
    crates := acc.crates + city.resources.crates
    wheat := acc.wheat + city.resources.wheat
    workforce := acc.workforce + city.resources.workforce
    rareResources := acc.rareResources + city.resources.rareResources
    money := acc.money + city.resources.money }

/-- Stable insertion of `x` into a list already sorted by descending `key`:
`x` goes in front of the first element whose key is not greater than `key x`.
Together with `sortDescBy` this models JS `Array.prototype.sort` (stable
since ES2019) with the comparator `(a, b) => key b - key a`. -/
def insertDescBy (key : α → Int) (x : α) : List α → List α
  | [] => [x]
  | y :: ys => if key y ≤ key x then x :: y :: ys else y :: insertDescBy key x ys

/-- Stable descending sort by an integer key; models the stable JS sort with
comparator `(a, b) => key b - key a` used by the stats and top-K routes. -/
def sortDescBy (key : α → Int) : List α → List α
  | [] => []
  | x :: xs => insertDescBy key x (sortDescBy key xs)

/-- `GET /api/cities/exact/:name/:index?` core logic: filter by exact name,
404 `No city found` when no match, 404 `Invalid index` when the index is not
below the match count, otherwise the index-th match. -/
def exactNameLookup (name : String) (index : Nat) (citiesData : List City) :
    Except LookupError City :=
  let ms := citiesData.filter (fun c => c.name == name)
  if ms.length = 0 then .error .notFound
  else if h : index < ms.length then .ok (ms.get ⟨index, h⟩)
  else .error .indexOutOfRange

/-- JS `String.prototype.toLowerCase()` as used for ASCII country codes,
written over the character list so that it evaluates by kernel reduction. -/
def jsToLower (s : String) : String :=
  String.mk (s.toList.map Char.toLower)

/-- Helper for `splitComma`: walk the characters, cutting at commas. -/
def splitCommaAux : List Char → List Char → List String
  | [], acc => [String.mk acc.reverse]
  | c :: cs, acc =>
    if c = ',' then String.mk acc.reverse :: splitCommaAux cs []
    else splitCommaAux cs (c :: acc)

/-- JS `String.prototype.split(',')`: the comma-separated tokens, keeping
empty tokens (`"FR,,DE"` gives `["FR", "", "DE"]`, `""` gives `[""]`). -/
def splitComma (s : String) : List String :=
  splitCommaAux s.toList []

/-- Truthiness of `n.trim()` in JS: true iff the token has a
non-whitespace character, i.e. its trim is a nonempty string. -/
def jsTrimTruthy (s : String) : Bool :=
  !(s.toList.all (fun c => c.isWhitespace))

/-- `GET /api/cities/country/:code` core logic: keep the cities whose
country code equals the requested code ignoring case and whose population
is at least `minPopulation`. -/
def citiesByCountry (code : String) (minPopulation : Int) (citiesData : List City) :
    List City :=
  citiesData.filter (fun city =>
    jsToLower city.countryCode == jsToLower code && decide (minPopulation ≤ city.population))

/-- The JSON object shape returned by `GET /api/cities/stats/:countryCode`. -/
structure CountryStats where
  totalPopulation : Int
  averagePopulation : ℚ
  cityCount : Nat
  largestCity : Option City
  smallestCity : Option City
  populationDensity : ℚ
deriving DecidableEq

/-- `GET /api/cities/stats/:countryCode` core logic: filter matching cities
(case-insensitive code), 404 when none match, otherwise total/average
population, city count, the first element of the stable descending
population sort as `largestCity`, its last element as `smallestCity`, and
`populationDensity = totalPop / cities.length`. -/
def countryStats (countryCode : String) (citiesData : List City) :
    Except LookupError CountryStats :=
  let cities := citiesData.filter (fun city =>
    jsToLower city.countryCode == jsToLower countryCode)
  if cities.length = 0 then .error .notFound
  else
    let totalPop := cities.foldl (fun sum city => sum + city.population) (0 : Int)
    let avgPop : ℚ := (totalPop : ℚ) / (cities.length : ℚ)
    let sortedByPop := sortDescBy (fun c => c.population) cities
    .ok
      { totalPopulation := totalPop
        averagePopulation := avgPop
        cityCount := cities.length
        largestCity := sortedByPop.head?
        smallestCity := sortedByPop.getLast?
        populationDensity := (totalPop : ℚ) / (cities.length : ℚ) }

/-- The dynamic field access `resources[resource as keyof Resources] || 0`
of the top-K route: a recognized field name selects that field, anything
else yields 0. -/
def resourceField (name : String) (r : Resources) : Int :=
  if name = "oil" then r.oil
  else if name = "metal" then r.metal
  else if name = "crates" then r.crates
  else if name = "wheat" then r.wheat
  else if name = "workforce" then r.workforce
  else if name = "rareResources" then r.rareResources
  else if name = "money" then r.money
  else 0

/-- One entry of the `countryResources` array built by
`GET /api/countries/top/:resource/:limit?`. -/
structure CountryResource where
  country : Country
  totalResource : Int
deriving DecidableEq

/-- The `countryResources` array of the top-K route: for each country, in
country-collection order, the named resource total over the cities whose
`countryCode` equals the country's `code` (strict `===`, case-sensitive). -/
def countryResourceEntries (resource : String) (citiesData : List City)
    (countriesData : List Country) : List CountryResource :=
  countriesData.map (fun country =>
    let cities := citiesData.filter (fun city => city.countryCode == country.code)
    let resources := computeTotalResources cities
    { country := country, totalResource := resourceField resource resources })

/-- `GET /api/countries/top/:resource/:limit?` core logic: build the
per-country totals, sort them descending by total (stable JS sort), then
`slice(0, limit)`. -/
def topCountriesByResource (resource : String) (limit : Nat) (citiesData : List City)
    (countriesData : List Country) : List CountryResource :=
  (sortDescBy (fun e => e.totalResource)
    (countryResourceEntries resource citiesData countriesData)).take limit

/-- `GET /api/countries/:code/neighbours` core logic: find the target
country by case-insensitive code (404 when absent), split its `neighbours`
string on commas, drop tokens whose trim is empty (JS truthiness of
`n.trim()`), look each remaining token up by exact `===` code equality, and
keep only the resolved records, in list order. -/
def resolveNeighbours (code : String) (countriesData : List Country) :
    Except LookupError (List Country) :=
  match countriesData.find? (fun c => jsToLower c.code == jsToLower code) with
  | none => .error .notFound
  | some country =>
    .ok (((splitComma country.neighbours).filter (fun n => jsTrimTruthy n))
      |>.filterMap (fun tok => countriesData.find? (fun c => c.code == tok)))

/-! ### Cache interleaving model (`getCitiesData`)

`getCitiesData` is `async`: the synchronous segment up to the `await
readFile` runs atomically (read NodeCache, test `!citiesData`, start the
read), then the caller suspends; the continuation (`JSON.parse`,
`cache.set`, `return`) runs atomically when the read completes. Concurrent
callers interleave at that `await` boundary only. -/

/-- Where one caller of `getCitiesData` currently is: not yet started, has
issued its `readFile` and is suspended at the `await`, or finished with a
result. -/
inductive CallPhase where
  | start
  | awaiting
  | done (result : List City)
deriving DecidableEq

/-- One atomic segment of `getCitiesData` for one caller, given the shared
NodeCache cell and a counter of `readFile` loads performed so far.
`diskData` is what the external source parses to. Cached arrays (even empty
ones) are truthy in JS, so any cached value is a hit. -/
def getCitiesDataStep (diskData : List City) (cache : Option (List City))
    (loads : Nat) : CallPhase → Option (List City) × Nat × CallPhase
  | .start =>
    match cache with
    | some v => (some v, loads, .done v)
    | none => (none, loads + 1, .awaiting)
  | .awaiting => (some diskData, loads, .done diskData)
  | .done r => (cache, loads, .done r)

/-- Shared state of two concurrent callers of `getCitiesData`: the NodeCache
entry for `citiesData`, the number of `readFile` loads performed, and each
caller's phase. -/
structure CacheSim where
  cache : Option (List City)
  loads : Nat
  callerA : CallPhase
  callerB : CallPhase
deriving DecidableEq

/-- Run a schedule over the two callers: `true` steps caller A, `false`
steps caller B. -/
def runSchedule (diskData : List City) : List Bool → CacheSim → CacheSim
  | [], s => s
  | pick :: rest, s =>
    if pick then
      let (c, l, p) := getCitiesDataStep diskData s.cache s.loads s.callerA
      runSchedule diskData rest { cache := c, loads := l, callerA := p, callerB := s.callerB }
    else
      let (c, l, p) := getCitiesDataStep diskData s.cache s.loads s.callerB
      runSchedule diskData rest { cache := c, loads := l, callerA := s.callerA, callerB := p }

/-! ### Load/parse failure model (`getCitiesData`'s error path)

`readFile` and `JSON.parse` are external collaborators; the embedding takes
their outcomes as inputs and mirrors what `getCitiesData` does with them. -/

/-- The JS value produced by `JSON.parse`, as far as truthiness and the
city-array payload are concerned. -/
inductive JsValue where
  | jnull
  | jbool (b : Bool)
  | jnum (n : Int)
  | jstr (s : String)
  | jarr (cities : List City)
deriving DecidableEq

/-- JS truthiness of a parsed value: `null`, `false`, `0` and `""` are
falsy; arrays (even empty) and everything else here are truthy. -/
def jsTruthy : JsValue → Bool
  | .jnull => false
  | .jbool b => b
  | .jnum n => n != 0
  | .jstr s => s != ""
  | .jarr _ => true

/-- The `!citiesData` test: a missing cache entry (`undefined`) or a cached
falsy value counts as a miss. -/
def cacheMiss : Option JsValue → Bool
  | none => true
  | some v => !jsTruthy v

/-- `getCitiesData` with its two external effects made explicit: the cached
entry, the `readFile` outcome and the `JSON.parse` function come in as
arguments; out come the value the caller receives (`citiesData || []`, so a
falsy parse result is replaced by the empty array) and the cache entry
afterwards. A thrown `readFile` or `JSON.parse` error is an `Except.error`
that short-circuits, exactly as the un-caught JS exception does. -/
def getCitiesDataF (cache : Option JsValue) (readFileResult : Except String String)
    (parse : String → Except String JsValue) :
    Except String (JsValue × Option JsValue) :=
  let citiesData := cache
  if cacheMiss citiesData then
    match readFileResult with
    | .error e => .error e
    | .ok rawData =>
      match parse rawData with
      | .error e => .error e
      | .ok v => .ok (if jsTruthy v then v else .jarr [], some v)
  else
    match citiesData with
    | some v => .ok (v, cache)
    | none => .ok (.jarr [], cache)

/-- Whether a parsed JS value is the expected city-array shape. -/
def JsValue.isCityArray : JsValue → Bool
  | .jarr _ => true
  | _ => false

/-! ### Haversine geometry (`calculateHaversineDistance`, nearest route) -/

/-- `toRad` from server.ts: degrees to radians. -/
noncomputable def toRad (degrees : ℚ) : ℝ :=
  ((degrees : ℝ) * Real.pi) / 180

/-- `Math.atan2(y, x)` restricted to the exact reals (signed zeros do not
exist there): the angle of the point `(x, y)`. -/
noncomputable def atan2 (y x : ℝ) : ℝ :=
  if 0 < x then Real.arctan (y / x)
  else if x < 0 then
    (if 0 ≤ y then Real.arctan (y / x) + Real.pi else Real.arctan (y / x) - Real.pi)
  else
    (if 0 < y then Real.pi / 2 else if y < 0 then -(Real.pi / 2) else 0)

/-- `calculateHaversineDistance` from server.ts: great-circle distance on a
sphere of radius 6371 km via the Haversine formula. -/
noncomputable def calculateHaversineDistance (lat1 lon1 lat2 lon2 : ℚ) : ℝ :=
  let R : ℝ := 6371
  let dLat := toRad (lat2 - lat1)
  let dLon := toRad (lon2 - lon1)
  let a := Real.sin (dLat / 2) * Real.sin (dLat / 2) +
    Real.cos (toRad lat1) * Real.cos (toRad lat2) *
      Real.sin (dLon / 2) * Real.sin (dLon / 2)
  let c := 2 * atan2 (Real.sqrt a) (Real.sqrt (1 - a))
  R * c

open Classical in
/-- `GET /api/cities/nearest/:lat/:lng/:radius` core logic: keep the cities
whose Haversine distance from the query point is at most the radius. -/
noncomputable def findWithinRadius (lat lng radius : ℚ) (cities : List City) :
    List City :=
  cities.filter (fun city =>
    decide (calculateHaversineDistance lat lng city.latLng.lat city.latLng.lng ≤
      (radius : ℝ)))

/-! ### Concrete records used to evaluate the routes on small datasets -/

/-- A placeholder doctrine for test records. -/
def testDoctrine : Doctrine := { name := "", description := "" }

/-- A country record with the given code and neighbours string and neutral
remaining fields. -/
def testCountry (code neighbours : String) : Country :=
  { code := code, iso3 := "", num := "", iso := "", name := "", capital := "",
    area := 0, population := 0, continent := "", tld := "", currency := "",
    currencyName := "", phone := "", postalCode := "", postalCodeRegex := "",
    languages := "", geonameid := 0, neighbours := neighbours,
    doctrine := testDoctrine }

/-- A resources record holding only oil. -/
def testResources (oil : Int) : Resources := { zeroResources with oil := oil }

/-- A city record at the origin with the given name, country code,
population and oil. -/
def testCity (name countryCode : String) (population : Int) (oil : Int) : City :=
  { geonameid := 0, name := name, asciiname := name, alternatenames := [],
    latLng := { lat := 0, lng := 0 }, featureClass := "", featureCode := "",
    countryCode := countryCode, population := population, timezone := "",
    width := 0, resources := testResources oil,
    country := testCountry countryCode "" }

/-- First of two equal-population cities of the same country. -/
def cityA : City := testCity "A" "US" 5 0

/-- Second of two equal-population cities of the same country. -/
def cityB : City := testCity "B" "US" 5 0

/-- The stats object `countryStats "us" [cityA, cityB]` evaluates to. -/
def statsAB : CountryStats :=
  { totalPopulation := 10, averagePopulation := 5, cityCount := 2,
    largestCity := some cityA, smallestCity := some cityB,
    populationDensity := 5 }

/-- First city named Springfield. -/
def springfield1 : City := testCity "Springfield" "US" 100 0

/-- Second city named Springfield. -/
def springfield2 : City := testCity "Springfield" "CA" 200 0

/-- A country whose stored code is upper-case. -/
def countryUS : Country := testCountry "US" ""

/-- A city whose stored country code is lower-case `us`, with 5 oil. -/
def cityLowerUS : City := testCity "X" "us" 300 5

/-- France, Germany and a country whose neighbours string is `FR,,DE`. -/
def countryFR : Country := testCountry "FR" ""

/-- Germany record for the neighbour fixtures. -/
def countryDE : Country := testCountry "DE" ""

/-- A country whose neighbours string contains a blank token. -/
def countryBE : Country := testCountry "BE" "FR,,DE"

/-- The entry the top-K route produces for `countryUS` when the only city
stores its code in lower case: the city is not assigned, so the total is 0. -/
def entryUS : CountryResource := { country := countryUS, totalResource := 0 }

end DefconServer

deriving instance DecidableEq for Except

namespace DefconServer

/-! ### Helper lemmas about the stable descending sort -/

/-- Inserting stably into a list permutes consing. -/
theorem insertDescBy_perm (key : α → Int) (x : α) :
    ∀ l : List α, List.Perm (insertDescBy key x l) (x :: l)
  | [] => by simp [insertDescBy]
  | y :: ys => by
    simp only [insertDescBy]
    split
    · exact List.Perm.refl _
    · exact ((insertDescBy_perm key x ys).cons y).trans (List.Perm.swap x y ys)

/-- The stable descending sort is a permutation of its input. -/
theorem sortDescBy_perm (key : α → Int) :
    ∀ l : List α, List.Perm (sortDescBy key l) l
  | [] => List.Perm.refl _
  | x :: xs =>
    (insertDescBy_perm key x (sortDescBy key xs)).trans
      ((sortDescBy_perm key xs).cons x)

/-- The stable descending sort preserves length. -/
theorem sortDescBy_length (key : α → Int) (l : List α) :
    (sortDescBy key l).length = l.length :=
  (sortDescBy_perm key l).length_eq

/-- Stable insertion preserves descending sortedness. -/
theorem insertDescBy_pairwise (key : α → Int) (x : α) {l : List α}
    (h : l.Pairwise (fun a b => key b ≤ key a)) :
    (insertDescBy key x l).Pairwise (fun a b => key b ≤ key a) := by
  induction l with
  | nil => simp [insertDescBy]
  | cons y ys ih =>
    rw [List.pairwise_cons] at h
    obtain ⟨hy, hys⟩ := h
    simp only [insertDescBy]
    split
    next hyx =>
      refine List.pairwise_cons.mpr ⟨?_, List.pairwise_cons.mpr ⟨hy, hys⟩⟩
      intro z hz
      rcases List.mem_cons.mp hz with rfl | hz'
      · exact hyx
      · exact (hy z hz').trans hyx
    next hyx =>
      refine List.pairwise_cons.mpr ⟨?_, ih hys⟩
      intro z hz
      rcases List.mem_cons.mp ((insertDescBy_perm key x ys).mem_iff.mp hz) with rfl | hz'
      · exact le_of_lt (lt_of_not_le hyx)
      · exact hy z hz'

/-- The stable descending sort is sorted: keys are non-increasing along it. -/
theorem sortDescBy_pairwise (key : α → Int) :
    ∀ l : List α, (sortDescBy key l).Pairwise (fun a b => key b ≤ key a)
  | [] => by simp [sortDescBy]
  | x :: xs => insertDescBy_pairwise key x (sortDescBy_pairwise key xs)

/-- Filtering one key class through a stable insertion: the inserted element
lands in front of its class, because everything placed before it has a
strictly greater key. -/
theorem insertDescBy_filter_key (key : α → Int) (x : α) (v : Int) :
    ∀ l : List α,
      (insertDescBy key x l).filter (fun a => key a == v)
        = if key x == v then x :: l.filter (fun a => key a == v)
          else l.filter (fun a => key a == v)
  | [] => by simp only [insertDescBy, List.filter_cons, List.filter_nil]
  | y :: ys => by
    simp only [insertDescBy]
    split
    next hyx =>
      rw [List.filter_cons]
    next hyx =>
      rw [List.filter_cons, insertDescBy_filter_key key x v ys, List.filter_cons]
      by_cases hx : key x = v
      · have hy : ¬ key y = v := by
          have h1 : key x < key y := lt_of_not_le hyx
          omega
        simp [beq_iff_eq, hx, hy]
      · simp [beq_iff_eq, hx]

/-- Stability of the descending sort: each key class keeps its input order. -/
theorem sortDescBy_filter_key (key : α → Int) (v : Int) :
    ∀ l : List α,
      (sortDescBy key l).filter (fun a => key a == v) = l.filter (fun a => key a == v)
  | [] => rfl
  | x :: xs => by
    simp only [sortDescBy]
    rw [insertDescBy_filter_key, sortDescBy_filter_key key v xs, List.filter_cons]

/-- The head of the stable descending sort has a maximal key, and it is the
first element of its key class in input order. -/
theorem sortDescBy_head_spec (key : α → Int) (l : List α) (c : α)
    (h : (sortDescBy key l).head? = some c) :
    (∀ x ∈ l, key x ≤ key c)
    ∧ (l.filter (fun x => key x == key c)).head? = some c := by
  obtain ⟨t, ht⟩ : ∃ t, sortDescBy key l = c :: t := by
    cases hs : sortDescBy key l with
    | nil => rw [hs] at h; simp at h
    | cons a t =>
      rw [hs] at h
      simp only [List.head?_cons, Option.some.injEq] at h
      exact ⟨t, by rw [h]⟩
  have hpw := sortDescBy_pairwise key l
  rw [ht] at hpw
  have hmax : ∀ x ∈ l, key x ≤ key c := by
    intro x hx
    have hx' : x ∈ c :: t := by
      rw [← ht]
      exact ((sortDescBy_perm key l).mem_iff).mpr hx
    rcases List.mem_cons.mp hx' with rfl | hx'
    · exact le_refl _
    · exact List.rel_of_pairwise_cons hpw hx'
  refine ⟨hmax, ?_⟩
  rw [← sortDescBy_filter_key key (key c) l, ht, List.filter_cons]
  simp

/-- The last element of the stable descending sort has a minimal key, and it
is the last element of its key class in input order. -/
theorem sortDescBy_getLast_spec (key : α → Int) (l : List α) (c : α)
    (h : (sortDescBy key l).getLast? = some c) :
    (∀ x ∈ l, key c ≤ key x)
    ∧ (l.filter (fun x => key x == key c)).getLast? = some c := by
  rw [List.getLast?_eq_head?_reverse] at h
  obtain ⟨t, ht⟩ : ∃ t, (sortDescBy key l).reverse = c :: t := by
    cases hs : (sortDescBy key l).reverse with
    | nil => rw [hs] at h; simp at h
    | cons a t =>
      rw [hs] at h
      simp only [List.head?_cons, Option.some.injEq] at h
      exact ⟨t, by rw [h]⟩
  have hpw : ((sortDescBy key l).reverse).Pairwise (fun a b => key a ≤ key b) := by
    rw [List.pairwise_reverse]
    exact sortDescBy_pairwise key l
  rw [ht] at hpw
  have hmin : ∀ x ∈ l, key c ≤ key x := by
    intro x hx
    have hx' : x ∈ c :: t := by
      rw [← ht, List.mem_reverse]
      exact ((sortDescBy_perm key l).mem_iff).mpr hx
    rcases List.mem_cons.mp hx' with rfl | hx'
    · exact le_refl _
    · exact List.rel_of_pairwise_cons hpw hx'
  refine ⟨hmin, ?_⟩
  rw [List.getLast?_eq_head?_reverse, ← sortDescBy_filter_key key (key c) l,
    ← List.filter_reverse, ht, List.filter_cons]
  simp

/-! ### Helper lemmas about `computeTotalResources` -/

/-- `computeTotalResources` is the fold of `resourcesAccum` from the zero
seed. -/
theorem computeTotalResources_eq_foldl (l : List City) :
    computeTotalResources l = l.foldl resourcesAccum zeroResources := rfl

/-- The fold with an arbitrary accumulator factors through the zero seed. -/
theorem foldl_resourcesAccum (l : List City) :
    ∀ acc : Resources,
      l.foldl resourcesAccum acc
        = addResources acc (l.foldl resourcesAccum zeroResources) := by
  induction l with
  | nil =>
    intro acc
    cases acc
    simp [addResources, zeroResources]
  | cons c cs ih =>
    intro acc
    simp only [List.foldl_cons]
    rw [ih (resourcesAccum acc c), ih (resourcesAccum zeroResources c)]
    cases acc
    simp only [addResources, resourcesAccum, zeroResources, Resources.mk.injEq]
    omega

/-! ### Claim theorems -/

/-- C9: `computeTotalResources` of the empty list is the all-zero record,
and it is partition-additive: for every split of a city list into two
parts, the field-wise sum of the two partition totals equals the total of
the whole list. -/
theorem computeTotalResources_additive (l1 l2 : List City) :
    computeTotalResources ([] : List City) = zeroResources
    ∧ computeTotalResources (l1 ++ l2)
        = addResources (computeTotalResources l1) (computeTotalResources l2) := by
  refine ⟨rfl, ?_⟩
  rw [computeTotalResources_eq_foldl, computeTotalResources_eq_foldl,
    computeTotalResources_eq_foldl, List.foldl_append]
  exact foldl_resourcesAccum l2 (l1.foldl resourcesAccum zeroResources)

/-- C7: exact-name lookup returns the index-th city among the cities named
`name` in input order; it fails with `notFound` when there is no match, and
with `indexOutOfRange` when there are matches but the index is at least the
match count. -/
theorem exactNameLookup_spec (name : String) (i : Nat) (cities : List City) :
    (cities.filter (fun c => c.name == name) = [] →
      exactNameLookup name i cities = .error .notFound)
    ∧ (cities.filter (fun c => c.name == name) ≠ [] →
        (cities.filter (fun c => c.name == name)).length ≤ i →
        exactNameLookup name i cities = .error .indexOutOfRange)
    ∧ (∀ h : i < (cities.filter (fun c => c.name == name)).length,
        exactNameLookup name i cities
          = .ok ((cities.filter (fun c => c.name == name)).get ⟨i, h⟩)
        ∧ ((cities.filter (fun c => c.name == name)).get ⟨i, h⟩).name = name) := by
  refine ⟨?_, ?_, ?_⟩
  · intro h
    simp [exactNameLookup, h]
  · intro h1 h2
    have h0 : ¬ (cities.filter (fun c => c.name == name)).length = 0 := by
      simpa [List.length_eq_zero] using h1
    simp only [exactNameLookup]
    rw [if_neg h0, dif_neg (by omega)]
  · intro h
    have h0 : ¬ (cities.filter (fun c => c.name == name)).length = 0 := by omega
    constructor
    · simp only [exactNameLookup]
      rw [if_neg h0, dif_pos h]
    · have hm : (cities.filter (fun c => c.name == name)).get ⟨i, h⟩
          ∈ cities.filter (fun c => c.name == name) := List.get_mem _ _ h
      have := (List.mem_filter.mp hm).2
      simpa using this

/-- Witness for C7 on the spec's Springfield example: among two cities
named Springfield, index 1 returns the second and index 2 is rejected as
out of range. -/
theorem exactNameLookup_spec_witness :
    exactNameLookup "Springfield" 1 [springfield1, springfield2] = .ok springfield2
    ∧ exactNameLookup "Springfield" 2 [springfield1, springfield2]
        = .error .indexOutOfRange := by
  constructor
  · exact ((exactNameLookup_spec "Springfield" 1 [springfield1, springfield2]).2.2
      (by decide)).1.trans (by decide)
  · exact (exactNameLookup_spec "Springfield" 2 [springfield1, springfield2]).2.1
      (by decide) (by decide)

/-- C5: the top-K route returns at most `limit` entries and at most one per
loaded country, its totals are non-increasing along the output, and the
output is the `limit`-truncation of the stable descending sort of the
per-country totals, a sort that keeps every tied class in
country-collection order. -/
theorem topCountriesByResource_spec (resource : String) (limit : Nat)
    (citiesData : List City) (countriesData : List Country) :
    (topCountriesByResource resource limit citiesData countriesData).length ≤ limit
    ∧ (topCountriesByResource resource limit citiesData countriesData).length
        ≤ countriesData.length
    ∧ (topCountriesByResource resource limit citiesData countriesData).Pairwise
        (fun a b => b.totalResource ≤ a.totalResource)
    ∧ topCountriesByResource resource limit citiesData countriesData
        = (sortDescBy (fun e => e.totalResource)
            (countryResourceEntries resource citiesData countriesData)).take limit
    ∧ ∀ v : Int,
        (sortDescBy (fun e => e.totalResource)
            (countryResourceEntries resource citiesData countriesData)).filter
          (fun e => e.totalResource == v)
        = (countryResourceEntries resource citiesData countriesData).filter
            (fun e => e.totalResource == v) := by
  refine ⟨?_, ?_, ?_, rfl, fun v => sortDescBy_filter_key _ v _⟩
  · rw [topCountriesByResource, List.length_take]
    exact min_le_left _ _
  · rw [topCountriesByResource, List.length_take]
    refine le_trans (min_le_right _ _) (le_of_eq ?_)
    rw [sortDescBy_length, countryResourceEntries, List.length_map]
  · exact List.Pairwise.sublist (List.take_sublist _ _) (sortDescBy_pairwise _ _)

/-- Unfolding of a successful `countryStats` call: the match list is
nonempty and the result record's fields are the computed ones. -/
theorem countryStats_ok (code : String) (citiesData : List City) (r : CountryStats)
    (h : countryStats code citiesData = .ok r) :
    r.largestCity = (sortDescBy (fun c => c.population)
        (citiesData.filter (fun city =>
          jsToLower city.countryCode == jsToLower code))).head?
    ∧ r.smallestCity = (sortDescBy (fun c => c.population)
        (citiesData.filter (fun city =>
          jsToLower city.countryCode == jsToLower code))).getLast?
    ∧ r.populationDensity = r.averagePopulation
    ∧ r.populationDensity = (r.totalPopulation : ℚ) / (r.cityCount : ℚ) := by
  have hm : ¬ (citiesData.filter (fun city =>
      jsToLower city.countryCode == jsToLower code)).length = 0 := by
    intro h0
    simp [countryStats, h0] at h
  simp only [countryStats, if_neg hm] at h
  injection h with h'
  subst h'
  exact ⟨rfl, rfl, rfl, rfl⟩

/-- Evaluation of `countryStats` on the two tied cities (the rational
average is computed with `norm_num`, since `Rat` division does not reduce
in the kernel). -/
theorem countryStats_eval_AB : countryStats "us" [cityA, cityB] = .ok statsAB := by
  have hm : [cityA, cityB].filter (fun city =>
      jsToLower city.countryCode == jsToLower "us") = [cityA, cityB] := by decide
  have hfold : [cityA, cityB].foldl
      (fun sum city => sum + city.population) (0 : Int) = 10 := by decide
  have hsort : sortDescBy (fun c => c.population) [cityA, cityB]
      = [cityA, cityB] := by decide
  have hlast : [cityA, cityB].getLast? = some cityB := by decide
  simp only [countryStats, hm, hfold, hsort, hlast, List.length_cons,
    List.length_nil, List.head?_cons]
  norm_num [statsAB]

/-- C1 counterexample: on two tied cities of the same country,
`smallestCity` is the second city, although the first input-order
occurrence of that (minimum) population is the first city; so "first
occurrence wins" fails for `smallestCity`. -/
theorem countryStats_smallest_not_first :
    (countryStats "us" [cityA, cityB]).map (fun r => r.smallestCity)
        = .ok (some cityB)
    ∧ ([cityA, cityB].filter
        (fun c => c.population == cityB.population)).head? = some cityA
    ∧ cityA ≠ cityB := by decide

/-- C1 (amended): after the stable descending population sort,
`largestCity` is the first input-order occurrence of the maximum population
among the matching cities, while `smallestCity` is the LAST input-order
occurrence of the minimum population (it is taken from the last element of
the sort, so among minimum ties the last occurrence wins, not the first). -/
theorem countryStats_extremes (code : String) (citiesData : List City)
    (r : CountryStats) (c : City)
    (h : countryStats code citiesData = .ok r) :
    (r.largestCity = some c →
      (∀ x ∈ citiesData.filter (fun city =>
          jsToLower city.countryCode == jsToLower code),
        x.population ≤ c.population)
      ∧ ((citiesData.filter (fun city =>
            jsToLower city.countryCode == jsToLower code)).filter
          (fun x => x.population == c.population)).head? = some c)
    ∧ (r.smallestCity = some c →
      (∀ x ∈ citiesData.filter (fun city =>
          jsToLower city.countryCode == jsToLower code),
        c.population ≤ x.population)
      ∧ ((citiesData.filter (fun city =>
            jsToLower city.countryCode == jsToLower code)).filter
          (fun x => x.population == c.population)).getLast? = some c) := by
  obtain ⟨hL, hS, _, _⟩ := countryStats_ok code citiesData r h
  constructor
  · intro hc
    rw [hc] at hL
    exact sortDescBy_head_spec (fun c => c.population) _ c hL.symm
  · intro hc
    rw [hc] at hS
    exact sortDescBy_getLast_spec (fun c => c.population) _ c hS.symm

/-- Witness for C1 (amended) at the two tied cities: `largestCity` is
`cityA`, the first element of its population class in input order. -/
theorem countryStats_extremes_witness :
    (([cityA, cityB].filter (fun city =>
        jsToLower city.countryCode == jsToLower "us")).filter
      (fun x => x.population == cityA.population)).head? = some cityA :=
  ((countryStats_extremes "us" [cityA, cityB] statsAB cityA
    countryStats_eval_AB).1 (by decide)).2

/-- C10: the stats result has the extra `populationDensity` field, equal to
`totalPopulation / cityCount` and hence always exactly equal to
`averagePopulation` (the code computes both with the same expression). -/
theorem countryStats_density (code : String) (citiesData : List City)
    (r : CountryStats) (h : countryStats code citiesData = .ok r) :
    r.populationDensity = r.averagePopulation
    ∧ r.populationDensity = (r.totalPopulation : ℚ) / (r.cityCount : ℚ) := by
  obtain ⟨_, _, h1, h2⟩ := countryStats_ok code citiesData r h
  exact ⟨h1, h2⟩

/-- Witness for C10 at a concrete two-city dataset. -/
theorem countryStats_density_witness :
    statsAB.populationDensity = statsAB.averagePopulation :=
  (countryStats_density "us" [cityA, cityB] statsAB countryStats_eval_AB).1

/-- C2 counterexample: `topCountriesByResource` does not assign a city to a
country whose code matches only up to case: with the city's stored code
`us` and the country's `US`, the oil total stays 0 even though the city has
5 oil, so not every country-code comparison is case-insensitive. -/
theorem topCountries_not_case_insensitive :
    (topCountriesByResource "oil" 10 [cityLowerUS] [countryUS]).map
        (fun e => e.totalResource) = [0]
    ∧ jsToLower cityLowerUS.countryCode = jsToLower countryUS.code
    ∧ cityLowerUS.resources.oil = 5 := by decide

/-- C2 (amended): the city-by-country filter compares codes
case-insensitively, but `topCountriesByResource` assigns cities to a
country by exact, case-sensitive code equality: every returned entry's
total is the resource total over exactly the cities whose stored
`countryCode` is string-equal to that entry's country code. -/
theorem countryCode_comparison_modes (citiesData : List City)
    (countriesData : List Country) :
    (∀ code minPop c, c ∈ citiesByCountry code minPop citiesData ↔
      (c ∈ citiesData ∧ jsToLower c.countryCode = jsToLower code
        ∧ minPop ≤ c.population))
    ∧ (∀ resource limit e,
        e ∈ topCountriesByResource resource limit citiesData countriesData →
        e.totalResource = resourceField resource
          (computeTotalResources
            (citiesData.filter (fun city => city.countryCode == e.country.code)))) := by
  constructor
  · intro code minPop c
    simp [citiesByCountry, List.mem_filter, and_assoc]
  · intro resource limit e he
    have h1 : e ∈ sortDescBy (fun e => e.totalResource)
        (countryResourceEntries resource citiesData countriesData) :=
      (List.take_sublist _ _).subset he
    have h2 : e ∈ countryResourceEntries resource citiesData countriesData :=
      ((sortDescBy_perm _ _).mem_iff).mp h1
    rw [countryResourceEntries] at h2
    obtain ⟨country, _, he'⟩ := List.mem_map.mp h2
    subst he'
    rfl

/-- Witness for C2 (amended): the single returned entry for `countryUS`
carries the case-sensitively filtered total. -/
theorem countryCode_comparison_modes_witness :
    entryUS.totalResource = resourceField "oil"
      (computeTotalResources
        ([cityLowerUS].filter (fun city => city.countryCode == entryUS.country.code))) :=
  (countryCode_comparison_modes [cityLowerUS] [countryUS]).2 "oil" 10 entryUS
    (by decide)

/-- C3 counterexample: with a cold cache, the interleaving that runs both
callers' cache checks before either continuation resumes performs two
`readFile` loads and completes both callers; `getCitiesData` has no
single-flight guard, so concurrent misses duplicate the load,
contradicting the claim's "exactly one underlying load". -/
theorem coldCache_double_load :
    (runSchedule [cityA] [true, false, true, false]
        { cache := none, loads := 0, callerA := .start, callerB := .start }).loads = 2
    ∧ (runSchedule [cityA] [true, false, true, false]
        { cache := none, loads := 0, callerA := .start, callerB := .start }).callerA
        = .done [cityA]
    ∧ (runSchedule [cityA] [true, false, true, false]
        { cache := none, loads := 0, callerA := .start, callerB := .start }).callerB
        = .done [cityA] := by decide

/-- C3 (amended): `getCitiesData` performs one `readFile` per caller that
observes a miss, with no coalescing: when the two callers run serially the
second one hits the cache and a single load happens, but when both run
their cache check before either load completes, two loads happen. -/
theorem runSchedule_loads (diskData : List City) :
    (runSchedule diskData [true, true, false, false]
        { cache := none, loads := 0, callerA := .start, callerB := .start }).loads = 1
    ∧ (runSchedule diskData [true, true, false, false]
        { cache := none, loads := 0, callerA := .start, callerB := .start }).callerB
        = .done diskData
    ∧ (runSchedule diskData [true, false, true, false]
        { cache := none, loads := 0, callerA := .start, callerB := .start }).loads = 2 :=
  ⟨rfl, rfl, rfl⟩

/-- C4 (amended): on a cache miss, a thrown `readFile` error and a thrown
`JSON.parse` error both propagate unchanged out of `getCitiesData`; only
content that parses successfully to a falsy value is silently replaced by
the empty collection (see the counterexample). -/
theorem getCitiesDataF_propagates (cache : Option JsValue)
    (parse : String → Except String JsValue) (e : String) :
    (cacheMiss cache = true →
      getCitiesDataF cache (.error e) parse = .error e)
    ∧ (∀ raw, cacheMiss cache = true → parse raw = .error e →
        getCitiesDataF cache (.ok raw) parse = .error e) := by
  constructor
  · intro h
    simp [getCitiesDataF, h]
  · intro raw h hp
    simp [getCitiesDataF, h, hp]

/-- Witness for C4 (amended): a failing read on a cold cache surfaces the
same error. -/
theorem getCitiesDataF_propagates_witness :
    getCitiesDataF none (.error "ENOENT")
        (fun _ => .ok (.jarr [])) = .error "ENOENT" :=
  (getCitiesDataF_propagates none (fun _ => .ok (.jarr [])) "ENOENT").1 (by decide)

/-- C4 counterexample: source content `"null"` is valid JSON but not a city
array; `JSON.parse` returns the falsy value `null`, and `getCitiesData`
returns the empty collection successfully (`citiesData || []`) instead of
failing — an empty-collection fallback that hides the malformed dataset. -/
theorem getCitiesDataF_hides_malformed :
    getCitiesDataF none (.ok "null") (fun _ => .ok .jnull)
        = .ok (.jarr [], some .jnull)
    ∧ JsValue.jnull.isCityArray = false := by decide

/-- The Haversine distance from a point to itself is zero: both angle
deltas vanish, so `a = 0` and `atan2 0 1 = 0`. -/
theorem calculateHaversineDistance_self (lat lng : ℚ) :
    calculateHaversineDistance lat lng lat lng = 0 := by
  simp [calculateHaversineDistance, toRad, atan2, sub_self, Real.sin_zero,
    Real.sqrt_zero, Real.sqrt_one, Real.arctan_zero, zero_lt_one]

/-- C6: for every query point, radius and city list, the nearest route
returns exactly the cities whose Haversine distance (Earth radius 6371 km)
from the query point is at most the radius (inclusive boundary) and keeps
them in input order (the result is a sublist of the input); and any city
occurring exactly once in the input is returned exactly once when queried
at its own coordinates with radius 0. -/
theorem findWithinRadius_spec (lat lng radius : ℚ) (cities : List City) :
    (∀ x, x ∈ findWithinRadius lat lng radius cities ↔
      (x ∈ cities ∧
        calculateHaversineDistance lat lng x.latLng.lat x.latLng.lng ≤ (radius : ℝ)))
    ∧ (findWithinRadius lat lng radius cities).Sublist cities
    ∧ (∀ c : City, cities.count c = 1 →
        (findWithinRadius c.latLng.lat c.latLng.lng 0 cities).count c = 1) := by
  refine ⟨?_, List.filter_sublist _, ?_⟩
  · intro x
    simp [findWithinRadius, List.mem_filter]
  · intro c h1
    rw [findWithinRadius]
    refine Eq.trans (List.count_filter ?_) h1
    rw [decide_eq_true_eq, calculateHaversineDistance_self]
    simp

/-- Witness for C6: the single city at the origin is found exactly once at
radius 0. -/
theorem findWithinRadius_spec_witness :
    [cityA].count cityA = 1
    ∧ (findWithinRadius cityA.latLng.lat cityA.latLng.lng 0 [cityA]).count cityA = 1 :=
  ⟨by decide, (findWithinRadius_spec 0 0 0 [cityA]).2.2 cityA (by decide)⟩

/-- C8: neighbour resolution fails with `notFound` exactly when the target
code resolves to no loaded country (case-insensitively); every returned
record belongs to the country collection; and a target whose neighbours
string is `"FR,,DE"` resolves to exactly the France and Germany records in
that order, the blank token silently dropped. -/
theorem resolveNeighbours_spec (code : String) (countriesData : List Country) :
    (resolveNeighbours code countriesData = .error .notFound ↔
      countriesData.find? (fun c => jsToLower c.code == jsToLower code) = none)
    ∧ (∀ l c, resolveNeighbours code countriesData = .ok l → c ∈ l →
        c ∈ countriesData)
    ∧ (∀ target fr de,
        countriesData.find? (fun c => jsToLower c.code == jsToLower code)
          = some target →
        target.neighbours = "FR,,DE" →
        countriesData.find? (fun c => c.code == "FR") = some fr →
        countriesData.find? (fun c => c.code == "DE") = some de →
        resolveNeighbours code countriesData = .ok [fr, de]) := by
  refine ⟨?_, ?_, ?_⟩
  · cases hf : countriesData.find? (fun c => jsToLower c.code == jsToLower code) with
    | none => simp [resolveNeighbours, hf]
    | some t => simp [resolveNeighbours, hf]
  · intro l c hl hc
    cases hf : countriesData.find? (fun c => jsToLower c.code == jsToLower code) with
    | none => simp [resolveNeighbours, hf] at hl
    | some t =>
      rw [resolveNeighbours, hf] at hl
      injection hl with hl'
      subst hl'
      obtain ⟨tok, _, hfind⟩ := List.mem_filterMap.mp hc
      exact List.mem_of_find?_eq_some hfind
  · intro target fr de hT hN hFR hDE
    simp only [resolveNeighbours, hT, hN]
    have hsplit : (splitComma "FR,,DE").filter (fun n => jsTrimTruthy n)
        = ["FR", "DE"] := by decide
    rw [hsplit]
    simp [List.filterMap_cons, hFR, hDE]

/-- Witness for C8 on the `"FR,,DE"` fixture: the blank token is dropped
and France/Germany are returned in order. -/
theorem resolveNeighbours_spec_witness :
    resolveNeighbours "be" [countryFR, countryDE, countryBE]
        = .ok [countryFR, countryDE] :=
  (resolveNeighbours_spec "be" [countryFR, countryDE, countryBE]).2.2
    countryBE countryFR countryDE (by decide) (by decide) (by decide) (by decide)

end DefconServer
